import Mathlib

/-!
Shallow embedding of the radio-operation control core in `src/lmic/radio.c`
(BasicMAC). The file-scope `static struct state` becomes an explicit record
`St` threaded through every operation; calls into the HAL, the radio driver
and the job scheduler are recorded in an `Action` trace, so that statements
about call order ("Stop/Reset runs first", "re-init happens before the
upstream continuation is scheduled") are statements about the trace, while
statements about stored state (`diomask`, `txmode`, the job slot) are
statements about the returned record.
-/

namespace Radio

/-- Occupant of the shared scheduler job slot `state.irqjob`: either the
protected guard-timeout callback `radio_irq_timeout` armed for a deadline
(`os_setProtectedTimedCallback`), or the interrupt bottom half
`radio_irq_func` (`os_setCallback`). Scheduling into the slot replaces the
previous occupant. -/
inductive Job where
  | timeout (deadline : Nat)
  | irqfunc
deriving DecidableEq, Repr

/-- Externally visible calls made by the core, in program order: HAL
primitives, radio-driver primitives, scheduler operations, plus the write of
`LMIC.dataLen` (recorded so that its order relative to scheduling the
upstream continuation can be stated). -/
inductive Action where
  | halDisableIRQs
  | halEnableIRQs
  | radioSleep
  | halAntSwitch (v : Nat)
  | halPinTcxo (v : Nat)
  | halIrqmaskSet (m : Nat)
  | clearIrqJob
  | radioStartTx (cont : Bool)
  | radioStartRx (cont : Bool)
  | radioCw
  | radioCca
  | radioCad
  | radioInit (calibrate : Bool)
  | radioIrqProcess (time mask : Nat)
  | setIrqTimeout (deadline : Nat)
  | scheduleIrqJob
  | scheduleLmicJob
  | setDataLen (n : Nat)
  | debugPrint
deriving DecidableEq, Repr

/-- The state visible to this core: the four fields of the file-scope
`struct state` in radio.c (`irqtime`, `diomask`, `txmode`, and the occupant
of the `irqjob` slot), plus the externally owned pieces the core reads or
writes: the pending flag of the upstream `LMIC.osjob`, `LMIC.dataLen`, and
the HAL/driver power state that `radio_stop` commands (radio sleep, antenna
switch position, TCXO rail, HAL interrupt mask, and the global
interrupt-disable nesting depth). -/
structure St where
  irqtime : Nat
  diomask : Nat
  txmode : Bool
  irqjob : Option Job
  lmicJobPending : Bool
  dataLen : Nat
  radioSleeping : Bool
  antSwitch : Nat
  tcxoPower : Bool
  halIrqMask : Nat
  irqDepth : Int
deriving DecidableEq, Repr

/-- The `HAL_ANTSW_OFF` argument of `hal_ant_switch`. -/
def HAL_ANTSW_OFF : Nat := 0

/-- `radio_stop` (radio.c lines 23-38): disable IRQs, put the radio to
sleep, switch the antenna off, power down the TCXO, clear the HAL interrupt
mask, cancel the job occupying `state.irqjob`, zero `state.diomask`,
re-enable IRQs. The disable/enable pair leaves the nesting depth unchanged. -/
def radio_stop (s : St) : St × List Action :=
  ({ s with radioSleeping := true
          , antSwitch := HAL_ANTSW_OFF
          , tcxoPower := false
          , halIrqMask := 0
          , irqjob := none
          , diomask := 0 },
   [Action.halDisableIRQs, Action.radioSleep, Action.halAntSwitch HAL_ANTSW_OFF,
    Action.halPinTcxo 0, Action.halIrqmaskSet 0, Action.clearIrqJob,
    Action.halEnableIRQs])

/-- The fixed action sequence emitted by `radio_stop`. -/
def stopTrace : List Action :=
  [Action.halDisableIRQs, Action.radioSleep, Action.halAntSwitch HAL_ANTSW_OFF,
   Action.halPinTcxo 0, Action.halIrqmaskSet 0, Action.clearIrqJob,
   Action.halEnableIRQs]

/-- `radio_set_irq_timeout` (radio.c lines 66-69): arm the guard timeout by
scheduling the protected timed callback into the shared `irqjob` slot,
replacing any previous occupant. -/
def radio_set_irq_timeout (deadline : Nat) (s : St) : St × List Action :=
  ({ s with irqjob := some (Job.timeout deadline) },
   [Action.setIrqTimeout deadline])

/-- `radio_irq_timeout` (radio.c lines 42-64), the guard-timeout callback:
stop everything, re-initialize the radio iff `txmode` is set, re-enable
IRQs (it runs as a protected job with IRQs disabled, so this decrements the
nesting depth), print a warning, zero `LMIC.dataLen`, and schedule the
upstream `LMIC.osjob` continuation. `radio_init` is a driver routine; its
internal effect on the chip is outside this core and is recorded only as a
trace action. -/
def radio_irq_timeout (s : St) : St × List Action :=
  let p := radio_stop s
  let reinit : List Action := if p.1.txmode then [Action.radioInit true] else []
  ({ p.1 with irqDepth := p.1.irqDepth - 1, dataLen := 0, lmicJobPending := true },
   p.2 ++ reinit ++
     [Action.halEnableIRQs, Action.debugPrint, Action.setDataLen 0,
      Action.scheduleLmicJob])

/-- `radio_irq_func` (radio.c lines 72-85), the interrupt bottom half. The
driver's classification function `radio_irq_process(state.irqtime,
state.diomask)` is external (not under src), so its boolean result is a
parameter `complete`; the call itself is recorded in the trace. If the
operation completed: `radio_stop`, then schedule the upstream continuation.
Either way `state.diomask` is cleared at the end. -/
def radio_irq_func (complete : Bool) (s : St) : St × List Action :=
  let classif : List Action := [Action.radioIrqProcess s.irqtime s.diomask]
  if complete then
    let p := radio_stop s
    ({ p.1 with lmicJobPending := true, diomask := 0 },
     classif ++ p.2 ++ [Action.scheduleLmicJob])
  else
    ({ s with diomask := 0 }, classif)

/-- One scheduler step that runs a pending bottom-half job: the scheduler
removes the job from the slot and then invokes `radio_irq_func`. Returns
`none` when the slot does not hold the bottom half. -/
def runIrqJob (complete : Bool) (s : St) : Option (St × List Action) :=
  if s.irqjob = some Job.irqfunc then
    some (radio_irq_func complete { s with irqjob := none })
  else
    none

/-- `radio_irq_handler` (radio.c lines 89-102), the interrupt top half.
`ASSERT(state.diomask == 0)` is a fatal contract check, modelled as `none`
(execution halts). Otherwise it captures the interrupt time and line
bitmask and schedules the bottom half into the shared `irqjob` slot,
replacing any pending guard-timeout job. -/
def radio_irq_handler (diomask ticks : Nat) (s : St) : Option (St × List Action) :=
  if s.diomask = 0 then
    some ({ s with irqtime := ticks, diomask := diomask, irqjob := some Job.irqfunc },
          [Action.scheduleIrqJob])
  else
    none

/-- `OSTICKS_PER_SEC` fixed by src/target/arduino/hal/target-config.h:
`US_PER_OSTICK_EXPONENT 4` gives 16 us per tick, so 62500 ticks per second. -/
def OSTICKS_PER_SEC : Nat := 62500

/-- Modelled from the spec: the tick-conversion macro `ms2osticks` lives in
oslmic.h, which is not under src; per the spec's millisecond constants and
target-config.h's tick rate it converts milliseconds to ticks as
`ms * OSTICKS_PER_SEC / 1000`. -/
def ms2osticks (ms : Nat) : Nat := ms * OSTICKS_PER_SEC / 1000

/-- Modelled from the spec: the nine `RADIO_*` mode constants are declared
in oslmic.h, which is not under src; they are modelled as the distinct
values 0..8. No claim depends on the concrete numbers, only on their
distinctness. -/
def RADIO_STOP : Nat := 0

/-- Mode constant, see `RADIO_STOP`. -/
def RADIO_TX : Nat := 1

/-- Mode constant, see `RADIO_STOP`. -/
def RADIO_RX : Nat := 2

/-- Mode constant, see `RADIO_STOP`. -/
def RADIO_RXON : Nat := 3

/-- Mode constant, see `RADIO_STOP`. -/
def RADIO_TXCW : Nat := 4

/-- Mode constant, see `RADIO_STOP`. -/
def RADIO_CCA : Nat := 5

/-- Mode constant, see `RADIO_STOP`. -/
def RADIO_INIT : Nat := 6

/-- Mode constant, see `RADIO_STOP`. -/
def RADIO_TXCONT : Nat := 7

/-- Mode constant, see `RADIO_STOP`. -/
def RADIO_CAD : Nat := 8

/-- Inputs the dispatcher reads from outside the core: `os_getTime()`
(`now`), `LMIC.rxtime`, and the two airtime values the MAC layer computes,
`LMIC_calcAirTime(LMIC.rps, LMIC.dataLen)` (`airtimePayload`) and
`LMIC_calcAirTime(LMIC.rps, 255)` (`airtime255`), all in ticks. -/
structure Env where
  now : Nat
  rxtime : Nat
  airtimePayload : Nat
  airtime255 : Nat
deriving DecidableEq, Repr

/-- `os_radio` (radio.c lines 104-184), the mode dispatcher, transcribed
case by case. target-config.h defines `DEBUG_TX`/`DEBUG_RX`, so the debug
prints in the TX, RX and RXON cases are compiled in and recorded as
`debugPrint` actions. A mode value matching no case falls out of the
switch and does nothing. -/
def os_radio (env : Env) (mode : Nat) (s : St) : St × List Action :=
  if mode = RADIO_STOP then
    radio_stop s
  else if mode = RADIO_TX then
    let p := radio_stop s
    let s1 := { p.1 with txmode := true }
    let q := radio_set_irq_timeout
      (env.now + ms2osticks 20 + env.airtimePayload * 110 / 100) s1
    (q.1, p.2 ++ [Action.debugPrint, Action.radioStartTx false] ++ q.2)
  else if mode = RADIO_RX then
    let p := radio_stop s
    let s1 := { p.1 with txmode := false }
    let q := radio_set_irq_timeout
      (env.rxtime + ms2osticks 5 + env.airtime255 * 110 / 100) s1
    (q.1, p.2 ++ [Action.debugPrint, Action.radioStartRx false] ++ q.2)
  else if mode = RADIO_RXON then
    let p := radio_stop s
    ({ p.1 with txmode := false },
     p.2 ++ [Action.debugPrint, Action.radioStartRx true])
  else if mode = RADIO_TXCW then
    let p := radio_stop s
    (p.1, p.2 ++ [Action.radioCw])
  else if mode = RADIO_CCA then
    let p := radio_stop s
    (p.1, p.2 ++ [Action.radioCca])
  else if mode = RADIO_INIT then
    (s, [Action.radioInit true])
  else if mode = RADIO_TXCONT then
    let p := radio_stop s
    (p.1, p.2 ++ [Action.radioStartTx true])
  else if mode = RADIO_CAD then
    let p := radio_stop s
    let s1 := { p.1 with txmode := false }
    let q := radio_set_irq_timeout
      (env.now + ms2osticks 10 + env.airtime255 * 110 / 100) s1
    (q.1, p.2 ++ q.2 ++ [Action.radioCad])
  else
    (s, [])

/-- The guard deadline pending in the shared job slot, if any. -/
def armedDeadline (s : St) : Option Nat :=
  match s.irqjob with
  | some (Job.timeout d) => some d
  | _ => none

/-- Recognizer for the `LMIC.dataLen` write action. -/
def isSetDataLen (a : Action) : Bool :=
  match a with
  | Action.setDataLen _ => true
  | _ => false

/-- Recognizer for the guard-arming scheduler action. -/
def isSetIrqTimeout (a : Action) : Bool :=
  match a with
  | Action.setIrqTimeout _ => true
  | _ => false

/-- A concrete environment used by witnesses: dispatch time 1000 ticks,
scheduled receive time 2000 ticks, payload airtime 3125 ticks (50 ms),
worst-case airtime 12500 ticks (200 ms). -/
def env0 : Env :=
  { now := 1000, rxtime := 2000, airtimePayload := 3125, airtime255 := 12500 }

/-- A concrete idle starting state used by witnesses. -/
def st0 : St :=
  { irqtime := 0, diomask := 0, txmode := false, irqjob := none,
    lmicJobPending := false, dataLen := 17, radioSleeping := false,
    antSwitch := 1, tcxoPower := true, halIrqMask := 7, irqDepth := 0 }

/-- C1 counterexample: dispatching the Initialize mode never invokes
Stop/Reset — its whole trace is the single driver init call, which does not
begin with the Stop/Reset sequence, and a nonzero interruptMask survives
into the mode-specific action, contradicting the claim that all nine modes,
including Initialize, stop first. -/
theorem C1_init_counterexample :
    (os_radio env0 RADIO_INIT { st0 with diomask := 1 }).2 =
      [Action.radioInit true] ∧
    (os_radio env0 RADIO_INIT { st0 with diomask := 1 }).2.take
      stopTrace.length ≠ stopTrace ∧
    (os_radio env0 RADIO_INIT { st0 with diomask := 1 }).1.diomask = 1 := by
  decide

/-- C1 (amended): for each of the eight dispatcher modes other than
Initialize, the trace begins with the full Stop/Reset action sequence, and
the state from which the mode-specific action then proceeds is the
Stop/Reset post-state, whose interruptMask is 0. -/
theorem C1_stop_first (env : Env) (s : St) (m : Nat)
    (h : m ∈ [RADIO_STOP, RADIO_TX, RADIO_RX, RADIO_RXON, RADIO_TXCW,
              RADIO_CCA, RADIO_TXCONT, RADIO_CAD]) :
    (os_radio env m s).2.take stopTrace.length = stopTrace ∧
    (radio_stop s).1.diomask = 0 := by
  fin_cases h <;> exact ⟨rfl, rfl⟩

/-- Witness for C1 (amended) at the Transmit mode and a concrete state. -/
theorem C1_stop_first_witness :
    RADIO_TX ∈ [RADIO_STOP, RADIO_TX, RADIO_RX, RADIO_RXON, RADIO_TXCW,
                RADIO_CCA, RADIO_TXCONT, RADIO_CAD] ∧
    ((os_radio env0 RADIO_TX st0).2.take stopTrace.length = stopTrace ∧
     (radio_stop st0).1.diomask = 0) :=
  ⟨by decide, C1_stop_first env0 st0 RADIO_TX (by decide)⟩

/-- C2: when the guard timeout fires, the radio is re-initialized and
recalibrated (radio_init true) iff transmitMode is set, and the full trace
shows that the re-initialization, when present, comes strictly after the
Stop/Reset sequence and strictly before the upstream continuation is
scheduled. -/
theorem C2_timeout_reinit (s : St) :
    ((Action.radioInit true ∈ (radio_irq_timeout s).2) ↔ s.txmode = true) ∧
    (radio_irq_timeout s).2 =
      stopTrace ++
        (if s.txmode then [Action.radioInit true] else []) ++
        [Action.halEnableIRQs, Action.debugPrint, Action.setDataLen 0,
         Action.scheduleLmicJob] := by
  cases h : s.txmode <;>
    simp [radio_irq_timeout, radio_stop, stopTrace, h]

/-- C3: the guard-timeout path zeroes the reported data length before it
schedules the upstream continuation: in the final state dataLen is 0 and
the continuation is pending; the very last action is scheduling the
continuation, the action just before it is the write of dataLen, and the
only dataLen write in the whole path is the write of 0. -/
theorem C3_timeout_zero_length (s : St) :
    (radio_irq_timeout s).1.dataLen = 0 ∧
    (radio_irq_timeout s).1.lmicJobPending = true ∧
    (radio_irq_timeout s).2.getLast? = some Action.scheduleLmicJob ∧
    (radio_irq_timeout s).2.dropLast.getLast? = some (Action.setDataLen 0) ∧
    (radio_irq_timeout s).2.filter isSetDataLen = [Action.setDataLen 0] := by
  cases h : s.txmode <;>
    simp [radio_irq_timeout, radio_stop, isSetDataLen, h]

/-- C4: the armed guard deadlines match the tabulated formulas (with the
source's integer arithmetic, where 1.10 x airtime is airtime * 110 / 100 in
ticks): Transmit arms now + 20 ms + 110% of the payload airtime, scheduled
Receive arms rxtime + 5 ms + 110% of the worst-case airtime,
channel-activity detection arms now + 10 ms + 110% of the worst-case
airtime; and a Transmit whose computed airtime is 50 ms arms exactly
now + 75 ms. -/
theorem C4_guard_deadlines (env : Env) (s : St) :
    armedDeadline (os_radio env RADIO_TX s).1 =
      some (env.now + ms2osticks 20 + env.airtimePayload * 110 / 100) ∧
    armedDeadline (os_radio env RADIO_RX s).1 =
      some (env.rxtime + ms2osticks 5 + env.airtime255 * 110 / 100) ∧
    armedDeadline (os_radio env RADIO_CAD s).1 =
      some (env.now + ms2osticks 10 + env.airtime255 * 110 / 100) ∧
    armedDeadline
        (os_radio { env with airtimePayload := ms2osticks 50 } RADIO_TX s).1 =
      some (env.now + ms2osticks 75) := by
  refine ⟨rfl, rfl, rfl, ?_⟩
  show some (env.now + ms2osticks 20 + ms2osticks 50 * 110 / 100) =
    some (env.now + ms2osticks 75)
  norm_num [ms2osticks, OSTICKS_PER_SEC]

/-- C5: the interrupt top half is fatal (halts) when invoked while
interruptMask is nonzero; under the precondition interruptMask = 0 it
stores the interrupt time into irqtime, the line bitmask into diomask, and
schedules the bottom half into the shared job slot. -/
theorem C5_irq_handler (m t : Nat) (s : St) :
    (s.diomask ≠ 0 → radio_irq_handler m t s = none) ∧
    (s.diomask = 0 → radio_irq_handler m t s =
      some ({ s with irqtime := t, diomask := m, irqjob := some Job.irqfunc },
            [Action.scheduleIrqJob])) := by
  constructor
  · intro h
    simp [radio_irq_handler, h]
  · intro h
    simp [radio_irq_handler, h]

/-- Witness for C5: a second interrupt taken while one is still captured is
fatal, and from the idle state the capture succeeds. -/
theorem C5_irq_handler_witness :
    (({ st0 with diomask := 2 } : St).diomask ≠ 0 ∧
      radio_irq_handler 4 777 { st0 with diomask := 2 } = none) ∧
    ((st0 : St).diomask = 0 ∧
      radio_irq_handler 4 777 st0 =
        some
          ({ st0 with irqtime := 777, diomask := 4, irqjob := some Job.irqfunc },
           [Action.scheduleIrqJob])) :=
  ⟨⟨by decide, (C5_irq_handler 4 777 { st0 with diomask := 2 }).1 (by decide)⟩,
   ⟨by decide, (C5_irq_handler 4 777 st0).2 (by decide)⟩⟩

/-- C6: the bottom half, run from the job slot. When the driver
classification reports the operation complete, the trace is the classify
call, then the full Stop/Reset sequence, then scheduling the upstream
continuation, and afterwards interruptMask is 0, the job slot is empty and
the continuation is pending. When it reports an intermediate interrupt, the
trace is the classify call alone — no Stop/Reset, no driver stop action —
and the only state change is that interruptMask is cleared to 0, restoring
the top half's precondition. -/
theorem C6_bottom_half (s : St) (h : s.irqjob = some Job.irqfunc) :
    runIrqJob true s =
      some
        ({ s with irqjob := none, diomask := 0, radioSleeping := true,
                  antSwitch := HAL_ANTSW_OFF, tcxoPower := false,
                  halIrqMask := 0, lmicJobPending := true },
         [Action.radioIrqProcess s.irqtime s.diomask] ++ stopTrace ++
           [Action.scheduleLmicJob]) ∧
    runIrqJob false s =
      some
        ({ s with irqjob := none, diomask := 0 },
         [Action.radioIrqProcess s.irqtime s.diomask]) := by
  constructor <;> simp [runIrqJob, h, radio_irq_func, radio_stop, stopTrace]

/-- Witness for C6 at a concrete captured-interrupt state. -/
theorem C6_bottom_half_witness :
    ({ st0 with diomask := 1, irqjob := some Job.irqfunc } : St).irqjob =
      some Job.irqfunc ∧
    (runIrqJob true { st0 with diomask := 1, irqjob := some Job.irqfunc } =
      some
        ({ st0 with diomask := 0, irqjob := none, radioSleeping := true,
                    antSwitch := HAL_ANTSW_OFF, tcxoPower := false,
                    halIrqMask := 0, lmicJobPending := true },
         [Action.radioIrqProcess 0 1] ++ stopTrace ++
           [Action.scheduleLmicJob]) ∧
     runIrqJob false { st0 with diomask := 1, irqjob := some Job.irqfunc } =
      some
        ({ st0 with diomask := 0, irqjob := none },
         [Action.radioIrqProcess 0 1])) :=
  ⟨by decide,
   C6_bottom_half { st0 with diomask := 1, irqjob := some Job.irqfunc } rfl⟩

/-- C7 counterexample: dispatch Transmit from the idle state (the guard is
armed, deadline 5687 ticks), take one hardware interrupt (the top half
reschedules the shared slot, displacing the guard), then run the bottom
half with an intermediate classification: the job slot ends up empty, so
the originally armed guard deadline does not remain pending and nothing is
left to force-terminate the operation. -/
theorem C7_counterexample :
    armedDeadline (os_radio env0 RADIO_TX st0).1 = some 5687 ∧
    ((radio_irq_handler 1 1500 (os_radio env0 RADIO_TX st0).1).bind
        (fun p => runIrqJob false p.1)).map (fun p => p.1.irqjob) =
      some none := by
  decide

/-- C7 (amended): the bottom half itself arms no new guard timeout — its
trace never contains a guard-arming scheduler call, for either
classification result — but the original deadline does not remain pending
either: the top half's scheduling of the bottom half into the shared slot
already displaced the guard job, so after an intermediate interrupt is
processed the job slot is empty and no deadline bounds the operation unless
a later interrupt or the driver re-arms one. -/
theorem C7_intermediate_no_rearm (c : Bool) (s : St)
    (h : s.irqjob = some Job.irqfunc) :
    (runIrqJob c s).map (fun p => p.2.filter isSetIrqTimeout) = some [] ∧
    (runIrqJob false s).map (fun p => p.1.irqjob) = some none := by
  cases c <;>
    simp [runIrqJob, h, radio_irq_func, radio_stop, isSetIrqTimeout]

/-- Witness for C7 (amended) at a concrete captured-interrupt state. -/
theorem C7_intermediate_no_rearm_witness :
    ({ st0 with diomask := 1, irqjob := some Job.irqfunc } : St).irqjob =
      some Job.irqfunc ∧
    ((runIrqJob false { st0 with diomask := 1, irqjob := some Job.irqfunc }).map
        (fun p => p.2.filter isSetIrqTimeout) = some [] ∧
     (runIrqJob false { st0 with diomask := 1, irqjob := some Job.irqfunc }).map
        (fun p => p.1.irqjob) = some none) :=
  ⟨by decide,
   C7_intermediate_no_rearm false
     { st0 with diomask := 1, irqjob := some Job.irqfunc } rfl⟩

/-- C8: Stop/Reset is idempotent — running it from its own post-state
reproduces exactly that post-state and the same action sequence — and its
post-state is the idle state: radio asleep, antenna switch off, TCXO off,
HAL interrupt mask 0, job slot empty, interruptMask 0. -/
theorem C8_stop_idempotent (s : St) :
    radio_stop (radio_stop s).1 = radio_stop s ∧
    (radio_stop s).1.radioSleeping = true ∧
    (radio_stop s).1.antSwitch = HAL_ANTSW_OFF ∧
    (radio_stop s).1.tcxoPower = false ∧
    (radio_stop s).1.halIrqMask = 0 ∧
    (radio_stop s).1.irqjob = none ∧
    (radio_stop s).1.diomask = 0 :=
  ⟨rfl, rfl, rfl, rfl, rfl, rfl, rfl⟩

/-- C9 counterexample: dispatch a scheduled Receive (transmitMode becomes
false), then dispatch Continuous-mode transmit: the second dispatch starts
a transmission (radio_starttx with continuous framing) yet transmitMode
stays false, so the flag is not "true iff the most recently started
operation was a transmission". -/
theorem C9_counterexample :
    Action.radioStartTx true ∈
      (os_radio env0 RADIO_TXCONT (os_radio env0 RADIO_RX st0).1).2 ∧
    (os_radio env0 RADIO_TXCONT (os_radio env0 RADIO_RX st0).1).1.txmode =
      false := by
  decide

/-- C9 (amended): transmitMode is written only by the four timeout-eligible
dispatches — Transmit sets it true; scheduled Receive, receive-continuous
and channel-activity detection set it false — while Stop, Continuous-wave,
Clear-channel assessment, Initialize and Continuous-mode transmit leave it
unchanged, so the flag records whether the most recent timeout-eligible
dispatch was a Transmit, not whether the most recently started operation
was a transmission. -/
theorem C9_txmode_updates (env : Env) (s : St) :
    (os_radio env RADIO_TX s).1.txmode = true ∧
    (os_radio env RADIO_RX s).1.txmode = false ∧
    (os_radio env RADIO_RXON s).1.txmode = false ∧
    (os_radio env RADIO_CAD s).1.txmode = false ∧
    (os_radio env RADIO_STOP s).1.txmode = s.txmode ∧
    (os_radio env RADIO_TXCW s).1.txmode = s.txmode ∧
    (os_radio env RADIO_CCA s).1.txmode = s.txmode ∧
    (os_radio env RADIO_INIT s).1.txmode = s.txmode ∧
    (os_radio env RADIO_TXCONT s).1.txmode = s.txmode :=
  ⟨rfl, rfl, rfl, rfl, rfl, rfl, rfl, rfl, rfl⟩

/-- C10: a mode value outside the nine enumerated modes falls through the
dispatcher's switch: the state is returned unchanged and no HAL, driver or
scheduler call is made — a silent no-op, not an error. -/
theorem C10_unknown_mode_noop (env : Env) (s : St) (m : Nat)
    (h : m ∉ [RADIO_STOP, RADIO_TX, RADIO_RX, RADIO_RXON, RADIO_TXCW,
              RADIO_CCA, RADIO_INIT, RADIO_TXCONT, RADIO_CAD]) :
    os_radio env m s = (s, []) := by
  simp only [List.mem_cons, List.not_mem_nil, or_false, not_or] at h
  obtain ⟨h0, h1, h2, h3, h4, h5, h6, h7, h8⟩ := h
  simp [os_radio, h0, h1, h2, h3, h4, h5, h6, h7, h8]

/-- Witness for C10 at the out-of-range mode value 42. -/
theorem C10_unknown_mode_noop_witness :
    (42 : Nat) ∉ [RADIO_STOP, RADIO_TX, RADIO_RX, RADIO_RXON, RADIO_TXCW,
                  RADIO_CCA, RADIO_INIT, RADIO_TXCONT, RADIO_CAD] ∧
    os_radio env0 42 st0 = (st0, []) :=
  ⟨by decide, C10_unknown_mode_noop env0 st0 42 (by decide)⟩

end Radio
